import Mathlib

/-!
Verification of the StudyRAG scoped document-retrieval system.

The definitions below are a shallow embedding of `src/StudyRAGSystem.py`
(and, where noted, `src/RAGAgent.py`): the scope data model, the ChromaDB
metadata-filter construction performed by `retriever_tool`, the ingestion
pipeline (`IngestionPipeline.ingest_pdf`, `ingest_all`,
`get_existing_books_in_vectorstore`), the `Catalog` metadata cache, the
navigation-command name resolution, and the agent's tool-dispatch loop.
External collaborators (the PDF loader, the text splitter, the vector
store's similarity search, clocks) are passed in as explicit parameters,
exactly at the call boundaries where the Python code invokes them.
-/

namespace StudyRAG

/-! ## Data model -/

/-- One ingestion candidate, as produced by `IngestionPipeline.scan_library`:
the dict with keys semester/subject/book_id/book_title/pdf_path/source_path. -/
structure BookInfo where
  semester : String
  subject : String
  book_id : String
  book_title : String
  pdf_path : String
  source_path : String
deriving DecidableEq

/-- The metadata stamped on every chunk (`ingest_pdf` updates each page's
metadata with the five identifying fields; `page` is the positional marker
contributed by the PDF loader). -/
structure ChunkMeta where
  semester : String
  subject : String
  book_id : String
  book_title : String
  source_path : String
  page : Nat
deriving DecidableEq

/-- A chunk stored in the vector store: its metadata and its text. -/
structure Chunk where
  meta : ChunkMeta
  text : String
deriving DecidableEq

/-- One page returned by the PDF loader, before metadata stamping. -/
structure Page where
  text : String
  page : Nat
deriving DecidableEq

/-- The scope fields of `AgentState` (`active_semester`, `active_subject`,
`active_books`). `none` models Python `None`; note that Python truthiness
also treats `some ""` as inactive. -/
structure ScopeState where
  active_semester : Option String
  active_subject : Option String
  active_books : List String
deriving DecidableEq

/-- Python truthiness of an `Optional[str]`: `None` and `""` are falsy. -/
def strOptActive : Option String → Bool
  | none => false
  | some s => !s.isEmpty

/-! ## Scope filter construction (`retriever_tool`, lines 403-431)

The tool builds `filter_conditions` (a list of ChromaDB conditions), then
wraps them: zero conditions gives no filter, one condition is used as is,
two or more are joined under the ChromaDB conjunction operator. -/

/-- A single ChromaDB condition as built by `retriever_tool`:
`{'field': value}` (equality) or `{'field': {'$in': values}}` (membership). -/
inductive FilterCond
  | eq (field : String) (value : String)
  | isin (field : String) (values : List String)
deriving DecidableEq

/-- The `where` filter shape passed to `similarity_search`: a single
condition, or `{'$and': conditions}`. -/
inductive WhereFilter
  | single (c : FilterCond)
  | conj (cs : List FilterCond)
deriving DecidableEq

/-- The `filter_conditions` list built by `retriever_tool`: an equality
condition per truthy scope dimension, and an `$in` condition for a
non-empty `active_books` list, in that order. -/
def filter_conditions (st : ScopeState) : List FilterCond :=
  (match st.active_semester with
    | some s => if s.isEmpty then [] else [FilterCond.eq "semester" s]
    | none => []) ++
  (match st.active_subject with
    | some s => if s.isEmpty then [] else [FilterCond.eq "subject" s]
    | none => []) ++
  (if st.active_books.isEmpty then [] else [FilterCond.isin "book_id" st.active_books])

/-- The wrapping step of `retriever_tool`: `None` for no conditions, the
single condition alone, `{'$and': ...}` for two or more. -/
def whereOfConds : List FilterCond → Option WhereFilter
  | [] => none
  | [c] => some (WhereFilter.single c)
  | cs => some (WhereFilter.conj cs)

/-- The complete `where_filter` computed by `retriever_tool` for a scope. -/
def where_filter (st : ScopeState) : Option WhereFilter :=
  whereOfConds (filter_conditions st)

/-- Metadata lookup by ChromaDB field name, for filter evaluation. -/
def metaField (m : ChunkMeta) (field : String) : Option String :=
  if field = "semester" then some m.semester
  else if field = "subject" then some m.subject
  else if field = "book_id" then some m.book_id
  else if field = "book_title" then some m.book_title
  else if field = "source_path" then some m.source_path
  else none

/-- ChromaDB evaluation of one condition against an item's metadata. -/
def matchesCond (m : ChunkMeta) : FilterCond → Bool
  | FilterCond.eq f v =>
    match metaField m f with
    | some x => x == v
    | none => false
  | FilterCond.isin f vs =>
    match metaField m f with
    | some x => vs.contains x
    | none => false

/-- ChromaDB evaluation of a `where` filter: no filter matches everything,
`$and` requires every condition to hold. -/
def matchesWhere (m : ChunkMeta) : Option WhereFilter → Bool
  | none => true
  | some (WhereFilter.single c) => matchesCond m c
  | some (WhereFilter.conj cs) => cs.all (matchesCond m)

/-- Number of active scope dimensions (semester, subject, book set). -/
def activeDims (st : ScopeState) : Nat :=
  (if strOptActive st.active_semester then 1 else 0) +
  (if strOptActive st.active_subject then 1 else 0) +
  (if st.active_books.isEmpty then 0 else 1)

/-- The semester condition an item must meet under scope `st`. -/
def semesterOk (st : ScopeState) (m : ChunkMeta) : Bool :=
  match st.active_semester with
  | some s => if s.isEmpty then true else m.semester == s
  | none => true

/-- The subject condition an item must meet under scope `st`. -/
def subjectOk (st : ScopeState) (m : ChunkMeta) : Bool :=
  match st.active_subject with
  | some s => if s.isEmpty then true else m.subject == s
  | none => true

/-- The book-membership condition an item must meet under scope `st`. -/
def booksOk (st : ScopeState) (m : ChunkMeta) : Bool :=
  if st.active_books.isEmpty then true else st.active_books.contains m.book_id

theorem metaField_semester (m : ChunkMeta) : metaField m "semester" = some m.semester := rfl

theorem metaField_subject (m : ChunkMeta) : metaField m "subject" = some m.subject := rfl

theorem metaField_book_id (m : ChunkMeta) : metaField m "book_id" = some m.book_id := rfl

theorem matchesCond_eq_semester (m : ChunkMeta) (v : String) :
    matchesCond m (FilterCond.eq "semester" v) = (m.semester == v) := rfl

theorem matchesCond_eq_subject (m : ChunkMeta) (v : String) :
    matchesCond m (FilterCond.eq "subject" v) = (m.subject == v) := rfl

theorem matchesCond_isin_book_id (m : ChunkMeta) (vs : List String) :
    matchesCond m (FilterCond.isin "book_id" vs) = vs.contains m.book_id := rfl

theorem matchesWhere_whereOfConds (m : ChunkMeta) (cs : List FilterCond) :
    matchesWhere m (whereOfConds cs) = cs.all (matchesCond m) := by
  match cs with
  | [] => rfl
  | [c] => simp [whereOfConds, matchesWhere]
  | c1 :: c2 :: rest => rfl

theorem conds_length_eq_activeDims (st : ScopeState) :
    (filter_conditions st).length = activeDims st := by
  obtain ⟨sem, subj, books⟩ := st
  cases sem <;> cases subj <;>
    simp [filter_conditions, activeDims, strOptActive] <;>
    split_ifs <;> simp_all

theorem matchesWhere_filter (st : ScopeState) (m : ChunkMeta) :
    matchesWhere m (where_filter st) =
      (semesterOk st m && subjectOk st m && booksOk st m) := by
  rw [where_filter, matchesWhere_whereOfConds]
  obtain ⟨sem, subj, books⟩ := st
  cases sem <;> cases subj <;>
    simp [filter_conditions, semesterOk, subjectOk, booksOk,
      matchesCond_eq_semester, matchesCond_eq_subject, matchesCond_isin_book_id] <;>
    split_ifs <;>
    simp_all [Bool.and_assoc, matchesCond_eq_semester, matchesCond_eq_subject,
      matchesCond_isin_book_id]

/-- C1: for every Scope, `retriever_tool` builds its retrieval filter so that
no active dimensions yield no filter, exactly one active dimension yields that
single condition (equality, or membership for the unit set), two or more
active dimensions yield their ChromaDB conjunction, and an item matches the
resolved filter exactly when it meets every active condition (semester
equality, subject equality, book-id membership) — so an item satisfying only
some of the active conditions is excluded. -/
theorem scope_filter_construction (st : ScopeState) (m : ChunkMeta) :
    ((filter_conditions st).length = activeDims st) ∧
    (activeDims st = 0 → where_filter st = none) ∧
    (activeDims st = 1 →
      ∃ c, filter_conditions st = [c] ∧ where_filter st = some (WhereFilter.single c)) ∧
    (2 ≤ activeDims st →
      where_filter st = some (WhereFilter.conj (filter_conditions st))) ∧
    (st.active_books ≠ [] →
      FilterCond.isin "book_id" st.active_books ∈ filter_conditions st) ∧
    (matchesWhere m (where_filter st) =
      (semesterOk st m && subjectOk st m && booksOk st m)) := by
  refine ⟨conds_length_eq_activeDims st, ?_, ?_, ?_, ?_, matchesWhere_filter st m⟩
  · intro h0
    have hl := conds_length_eq_activeDims st
    rw [h0] at hl
    have hn : filter_conditions st = [] := List.eq_nil_of_length_eq_zero hl
    rw [where_filter, hn]
    rfl
  · intro h1
    have hl := conds_length_eq_activeDims st
    rw [h1] at hl
    obtain ⟨c, hc⟩ := List.length_eq_one.mp hl
    exact ⟨c, hc, by rw [where_filter, hc]; rfl⟩
  · intro h2
    have hl := conds_length_eq_activeDims st
    cases hcs : filter_conditions st with
    | nil => rw [hcs] at hl; rw [← hl] at h2; simp at h2
    | cons a t =>
      cases t with
      | nil => rw [hcs] at hl; rw [← hl] at h2; simp at h2
      | cons b l => rw [where_filter, hcs]; rfl
  · intro hb
    have hbe : st.active_books.isEmpty = false := by
      cases hx : st.active_books with
      | nil => exact absurd hx hb
      | cons a t => rfl
    simp [filter_conditions, hbe]

/-- The example Scope of the spec: collection `Y3S2`, subcollection
`Machine Learning`, unit set `{TextbookA}`. -/
def c1Scope : ScopeState :=
  { active_semester := some "Y3S2", active_subject := some "Machine Learning",
    active_books := ["TextbookA"] }

/-- An item agreeing with `c1Scope` on semester and subject but not in the
active book set. -/
def c1MetaTwo : ChunkMeta :=
  { semester := "Y3S2", subject := "Machine Learning", book_id := "TextbookB",
    book_title := "B", source_path := "Y3S2/ML/TextbookB/B.pdf", page := 1 }

/-- Witness for C1 at the spec's example scope: three active dimensions give
the conjunction filter, and the two-of-three item `c1MetaTwo` is excluded. -/
theorem scope_filter_construction_witness :
    (2 ≤ activeDims c1Scope) ∧
    where_filter c1Scope = some (WhereFilter.conj (filter_conditions c1Scope)) ∧
    matchesWhere c1MetaTwo (where_filter c1Scope) =
      (semesterOk c1Scope c1MetaTwo && subjectOk c1Scope c1MetaTwo &&
        booksOk c1Scope c1MetaTwo) ∧
    matchesWhere c1MetaTwo (where_filter c1Scope) = false :=
  ⟨by decide, (scope_filter_construction c1Scope c1MetaTwo).2.2.2.1 (by decide),
    (scope_filter_construction c1Scope c1MetaTwo).2.2.2.2.2, by decide⟩

/-! ## Retriever tool output (`retriever_tool`, lines 433-473)

The similarity search is the external vector-index call; it is passed in as
a function returning either a document list or the text of a raised
exception. -/

/-- The literal message `retriever_tool` returns when the search succeeds
with zero results. -/
def noResultsMsg : String :=
  "No relevant information found in the current scope. Try using 'clear' to search all materials or adjust your scope."

/-- The message `retriever_tool` returns from its exception handler. -/
def retrievalErrorMsg (e : String) : String :=
  "Error during retrieval: " ++ e

/-- The citation-annotated section formatted for one retrieved document. -/
def formatDoc (d : Chunk) : String :=
  "[📚 " ++ d.meta.book_title ++ " | 📄 Page " ++ toString d.meta.page ++
    " | 📁 " ++ d.meta.semester ++ "/" ++ d.meta.subject ++ "]\n" ++ d.text

/-- The body of `retriever_tool`: build the scope filter, run the similarity
search, and render zero results, formatted results, or the caught error. -/
def retriever_tool (search : String → Option WhereFilter → Except String (List Chunk))
    (st : ScopeState) (query : String) : String :=
  match search query (where_filter st) with
  | Except.error e => retrievalErrorMsg e
  | Except.ok docs =>
    if docs.isEmpty then noResultsMsg
    else String.intercalate "\n\n---\n\n" (docs.map formatDoc)

theorem retrievalErrorMsg_ne_noResultsMsg (e : String) :
    retrievalErrorMsg e ≠ noResultsMsg := by
  intro h
  have hd := congrArg String.data h
  rw [retrievalErrorMsg, String.data_append] at hd
  have h1 : "Error during retrieval: ".data = 'E' :: "rror during retrieval: ".data := rfl
  have h2 : noResultsMsg.data =
      'N' :: "o relevant information found in the current scope. Try using 'clear' to search all materials or adjust your scope.".data := rfl
  rw [h1, h2, List.cons_append] at hd
  injection hd with hc _
  exact absurd hc (by decide)

/-- C4: for every query and Scope, a successful similarity search returning
zero chunks makes `retriever_tool` return the explicit no-relevant-information
message, while a raised exception makes it return the error-reporting string;
the two outcomes are never the same text, so an empty result is always
distinguishable from a retrieval failure. -/
theorem empty_result_vs_tool_failure
    (search : String → Option WhereFilter → Except String (List Chunk))
    (st : ScopeState) (query : String) :
    (search query (where_filter st) = Except.ok [] →
      retriever_tool search st query = noResultsMsg) ∧
    (∀ e, search query (where_filter st) = Except.error e →
      retriever_tool search st query = retrievalErrorMsg e ∧
      retriever_tool search st query ≠ noResultsMsg) := by
  constructor
  · intro h
    simp [retriever_tool, h]
  · intro e h
    refine ⟨by simp [retriever_tool, h], ?_⟩
    simp only [retriever_tool, h]
    exact retrievalErrorMsg_ne_noResultsMsg e

/-- A search stub that succeeds with zero results. -/
def emptySearch : String → Option WhereFilter → Except String (List Chunk) :=
  fun _ _ => Except.ok []

/-- A search stub that raises (an unreachable Index). -/
def failingSearch : String → Option WhereFilter → Except String (List Chunk) :=
  fun _ _ => Except.error "connection refused"

/-- Witness for C4: at a concrete query and scope, the empty-result stub
yields the no-relevant-information message and the raising stub yields the
distinct error string. -/
theorem empty_result_vs_tool_failure_witness :
    retriever_tool emptySearch c1Scope "What is gradient descent?" = noResultsMsg ∧
    retriever_tool failingSearch c1Scope "What is gradient descent?" =
      retrievalErrorMsg "connection refused" ∧
    retriever_tool failingSearch c1Scope "What is gradient descent?" ≠ noResultsMsg :=
  ⟨(empty_result_vs_tool_failure emptySearch c1Scope "What is gradient descent?").1 rfl,
    (empty_result_vs_tool_failure failingSearch c1Scope "What is gradient descent?").2
      "connection refused" rfl⟩

/-! ## Ingestion pipeline (`IngestionPipeline`, lines 48-291)

External collaborators are explicit parameters: `loadPdf` models
`PyPDFLoader(...).load()` (`none` covers both a missing file and a raised
load error, the two early exits of `ingest_pdf`), `splitText` models the
`RecursiveCharacterTextSplitter` on one page's text (`split_documents`
copies each page's metadata onto its chunks), `existingReadFails` models
`collection.get` raising inside `get_existing_books_in_vectorstore`,
`commitFails` models `vectorstore.add_documents` raising, and `now` is the
run timestamp `datetime.now().isoformat()`. -/

structure IngestEnv where
  splitText : String → List String
  loadPdf : String → Option (List Page)
  existingReadFails : Bool
  commitFails : Bool
  now : String

/-- The metadata update performed on each loaded page by `ingest_pdf`:
the five identifying fields of the candidate, keeping the loader's page
number. -/
def stampMeta (b : BookInfo) (p : Page) : ChunkMeta :=
  { semester := b.semester, subject := b.subject, book_id := b.book_id,
    book_title := b.book_title, source_path := b.source_path, page := p.page }

/-- `IngestionPipeline.ingest_pdf`: load the PDF (returning no chunks when
the file is missing or the load raises), stamp every page with the
candidate's identifying metadata, and split the pages into chunks, each
chunk carrying its page's metadata. -/
def ingest_pdf (env : IngestEnv) (b : BookInfo) : List Chunk :=
  match env.loadPdf b.pdf_path with
  | none => []
  | some pages =>
    pages.flatMap fun p =>
      (env.splitText p.text).map fun t => { meta := stampMeta b p, text := t }

/-- `IngestionPipeline.get_existing_books_in_vectorstore`: sample at most
1000 stored items (`collection.get(limit=1000)`) and collect the set of
their `source_path` values; any exception yields the empty set. -/
def get_existing_books_in_vectorstore (env : IngestEnv) (store : List Chunk) : List String :=
  if env.existingReadFails then []
  else ((store.take 1000).map fun c => c.meta.source_path).dedup

/-- The per-book loop of `ingest_all` (lines 229-252): returns the
accumulated chunks, the processed count and the skipped count. A candidate
already in `existing` is skipped (unless forcing); a candidate yielding no
chunks is neither processed nor skipped. -/
def processBooks (env : IngestEnv) (force : Bool) (existing : List String) :
    List BookInfo → List Chunk × Nat × Nat
  | [] => ([], 0, 0)
  | b :: rest =>
    if !force && existing.contains b.source_path then
      ((processBooks env force existing rest).1,
        (processBooks env force existing rest).2.1,
        (processBooks env force existing rest).2.2 + 1)
    else if (ingest_pdf env b).isEmpty then
      processBooks env force existing rest
    else
      (ingest_pdf env b ++ (processBooks env force existing rest).1,
        (processBooks env force existing rest).2.1 + 1,
        (processBooks env force existing rest).2.2)

/-- The iteration order of `ingest_all` over the scanned library dict:
all books of all semesters, in scan order. -/
def libraryBooks (library : List (String × List BookInfo)) : List BookInfo :=
  library.flatMap fun p => p.2

/-- The run summary persisted to `cache/ingestion_log.json` (lines 278-289). -/
structure LogRecord where
  timestamp : String
  books_processed : Nat
  books_skipped : Nat
  total_chunks : Nat
  library_structure : List (String × List BookInfo)
deriving DecidableEq

/-- The observable outcome of one `ingest_all` run: the vector store
contents afterwards, the printed counts, the chunks accumulated for this
run, and the log record written (none when the run exited early). -/
structure RunResult where
  store : List Chunk
  processed : Nat
  skipped : Nat
  allChunks : List Chunk
  log : Option LogRecord

/-- `IngestionPipeline.ingest_all`: scan result `library` in, early exit on
an empty library, diff against the sampled existing set (skipped when
forcing), process every remaining candidate, commit all accumulated chunks
in one batch (an exception aborts the run before the log), and persist the
run summary. -/
def ingest_all (env : IngestEnv) (library : List (String × List BookInfo))
    (force_reingest : Bool) (store : List Chunk) : RunResult :=
  if library.isEmpty then
    { store := store, processed := 0, skipped := 0, allChunks := [], log := none }
  else
    let existing := if force_reingest then [] else get_existing_books_in_vectorstore env store
    let r := processBooks env force_reingest existing (libraryBooks library)
    let logRec : LogRecord := { timestamp := env.now,
                                books_processed := r.2.1,
                                books_skipped := r.2.2,
                                total_chunks := r.1.length,
                                library_structure := library }
    if r.1.isEmpty then
      { store := store, processed := r.2.1, skipped := r.2.2, allChunks := r.1,
        log := some logRec }
    else if env.commitFails then
      { store := store, processed := r.2.1, skipped := r.2.2, allChunks := r.1, log := none }
    else
      { store := store ++ r.1, processed := r.2.1, skipped := r.2.2, allChunks := r.1,
        log := some logRec }

theorem ingest_pdf_source_path (env : IngestEnv) (b : BookInfo) :
    ∀ c ∈ ingest_pdf env b, c.meta.source_path = b.source_path := by
  intro c h
  rw [ingest_pdf] at h
  cases hp : env.loadPdf b.pdf_path with
  | none => rw [hp] at h; simp at h
  | some pages =>
    rw [hp] at h
    simp only [List.mem_flatMap, List.mem_map] at h
    obtain ⟨p, _, t, _, rfl⟩ := h
    rfl

/-- C3: every chunk produced from an ingestion candidate carries exactly the
candidate's identifying metadata (semester, subject, book_id, book_title and
source_path), so each chunk is traceable to its document unit. -/
theorem chunk_traceability (env : IngestEnv) (b : BookInfo) (c : Chunk)
    (h : c ∈ ingest_pdf env b) :
    c.meta.semester = b.semester ∧ c.meta.subject = b.subject ∧
    c.meta.book_id = b.book_id ∧ c.meta.book_title = b.book_title ∧
    c.meta.source_path = b.source_path := by
  rw [ingest_pdf] at h
  cases hp : env.loadPdf b.pdf_path with
  | none => rw [hp] at h; simp at h
  | some pages =>
    rw [hp] at h
    simp only [List.mem_flatMap, List.mem_map] at h
    obtain ⟨p, _, t, _, rfl⟩ := h
    exact ⟨rfl, rfl, rfl, rfl, rfl⟩

/-- A one-page ingestion environment for the C3 witness. -/
def c3Env : IngestEnv :=
  { splitText := fun t => [t],
    loadPdf := fun p => if p = "raw_data/Y3S2/ML/TextbookA/Intro.pdf" then
        some [{ text := "hello", page := 0 }] else none,
    existingReadFails := false, commitFails := false, now := "2026-01-01T00:00:00" }

/-- The C3 witness candidate. -/
def c3Book : BookInfo :=
  { semester := "Y3S2", subject := "ML", book_id := "TextbookA",
    book_title := "Intro", pdf_path := "raw_data/Y3S2/ML/TextbookA/Intro.pdf",
    source_path := "Y3S2/ML/TextbookA/Intro.pdf" }

/-- The chunk `c3Env` produces from `c3Book`. -/
def c3ChunkMeta : ChunkMeta :=
  { semester := "Y3S2", subject := "ML", book_id := "TextbookA",
    book_title := "Intro", source_path := "Y3S2/ML/TextbookA/Intro.pdf",
    page := 0 }

/-- The chunk built from `c3ChunkMeta` and the page text. -/
def c3Chunk : Chunk := { meta := c3ChunkMeta, text := "hello" }

/-- Witness for C3 at a concrete one-page candidate. -/
theorem chunk_traceability_witness :
    c3Chunk.meta.semester = c3Book.semester ∧ c3Chunk.meta.subject = c3Book.subject ∧
    c3Chunk.meta.book_id = c3Book.book_id ∧ c3Chunk.meta.book_title = c3Book.book_title ∧
    c3Chunk.meta.source_path = c3Book.source_path :=
  chunk_traceability c3Env c3Book c3Chunk
    (by simp [ingest_pdf, c3Env, c3Book, c3Chunk, c3ChunkMeta, stampMeta])

theorem processBooks_rest_subset (env : IngestEnv) (force : Bool) (existing : List String)
    (b : BookInfo) (rest : List BookInfo) :
    (processBooks env force existing rest).1 ⊆ (processBooks env force existing (b :: rest)).1 := by
  intro c hc
  rw [processBooks]
  split
  · exact hc
  · split
    · exact hc
    · exact List.mem_append_right _ hc

theorem processBooks_covers (env : IngestEnv) (existing : List String) (bs : List BookInfo) :
    ∀ b ∈ bs, b.source_path ∈ existing ∨ ingest_pdf env b = [] ∨
      ∃ c ∈ (processBooks env false existing bs).1, c.meta.source_path = b.source_path := by
  induction bs with
  | nil => simp
  | cons b0 rest ih =>
    intro b hb
    rcases List.mem_cons.mp hb with rfl | hmem
    · by_cases hsk : existing.contains b.source_path
      · left
        simpa using hsk
      · by_cases hemp : (ingest_pdf env b).isEmpty
        · right; left
          simpa using hemp
        · right; right
          have hne : ingest_pdf env b ≠ [] := by
            intro hx
            rw [hx] at hemp
            simp at hemp
          obtain ⟨c, hc⟩ := List.exists_mem_of_ne_nil _ hne
          refine ⟨c, ?_, ingest_pdf_source_path env b c hc⟩
          rw [processBooks]
          rw [if_neg (by simpa using hsk), if_neg hemp]
          exact List.mem_append_left _ hc
    · rcases ih b hmem with h | h | ⟨c, hc, hsp⟩
      · exact Or.inl h
      · exact Or.inr (Or.inl h)
      · exact Or.inr (Or.inr ⟨c, processBooks_rest_subset env false existing b0 rest hc, hsp⟩)

theorem processBooks_chunks_nil (env : IngestEnv) (existing : List String)
    (bs : List BookInfo)
    (h : ∀ b ∈ bs, b.source_path ∈ existing ∨ ingest_pdf env b = []) :
    (processBooks env false existing bs).1 = [] := by
  induction bs with
  | nil => rfl
  | cons b rest ih =>
    have hrest := ih (fun b' hb' => h b' (List.mem_cons_of_mem b hb'))
    rw [processBooks]
    rcases h b (List.mem_cons_self b rest) with hm | hm
    · rw [if_pos (by simpa using hm)]
      exact hrest
    · split
      · exact hrest
      · split
        · exact hrest
        · next hemp => exact absurd (by simp [hm]) hemp

theorem ingest_all_noforce (env : IngestEnv) (lib : List (String × List BookInfo))
    (store : List Chunk) (hcf : env.commitFails = false) (hlib : lib.isEmpty = false) :
    (ingest_all env lib false store).allChunks =
      (processBooks env false (get_existing_books_in_vectorstore env store)
        (libraryBooks lib)).1 ∧
    (ingest_all env lib false store).store =
      store ++ (ingest_all env lib false store).allChunks := by
  constructor <;> simp only [ingest_all, hlib, Bool.false_eq_true, if_false, hcf] <;>
    split <;> simp_all [List.isEmpty_iff]

/-- C2 (amended): ingestion is idempotent provided the diff-step read of the
Index succeeds, the commit succeeds, and the Index after the first run holds
at most 1000 chunks — the bounded window `collection.get(limit=1000)` that
the diff step samples. Under those hypotheses a second run with the same
sources adds zero chunks and leaves the Index contents unchanged. -/
theorem ingestion_idempotent (env : IngestEnv) (lib : List (String × List BookInfo))
    (store : List Chunk)
    (hrf : env.existingReadFails = false) (hcf : env.commitFails = false)
    (hsize : (ingest_all env lib false store).store.length ≤ 1000) :
    (ingest_all env lib false (ingest_all env lib false store).store).allChunks = [] ∧
    (ingest_all env lib false (ingest_all env lib false store).store).store =
      (ingest_all env lib false store).store := by
  by_cases hlib : lib.isEmpty
  · constructor <;> simp [ingest_all, hlib]
  · have hlib' : lib.isEmpty = false := by simpa using hlib
    obtain ⟨hAC, hS⟩ := ingest_all_noforce env lib store hcf hlib'
    obtain ⟨hAC2, hS2⟩ :=
      ingest_all_noforce env lib (ingest_all env lib false store).store hcf hlib'
    have hTake : (ingest_all env lib false store).store.take 1000 =
        (ingest_all env lib false store).store := List.take_of_length_le hsize
    have hnil : (processBooks env false
        (get_existing_books_in_vectorstore env (ingest_all env lib false store).store)
        (libraryBooks lib)).1 = [] := by
      apply processBooks_chunks_nil
      intro b hb
      rcases processBooks_covers env (get_existing_books_in_vectorstore env store)
          (libraryBooks lib) b hb with hx | hx | ⟨c, hc, hsp⟩
      · left
        simp only [get_existing_books_in_vectorstore, hrf, Bool.false_eq_true, if_false,
          List.mem_dedup, List.mem_map] at hx ⊢
        obtain ⟨c, hcmem, hcsp⟩ := hx
        refine ⟨c, ?_, hcsp⟩
        rw [hTake, hS]
        exact List.mem_append_left _ (List.take_subset 1000 store hcmem)
      · exact Or.inr hx
      · left
        simp only [get_existing_books_in_vectorstore, hrf, Bool.false_eq_true, if_false,
          List.mem_dedup, List.mem_map]
        refine ⟨c, ?_, hsp⟩
        rw [hTake, hS, hAC]
        exact List.mem_append_right _ hc
    refine ⟨by rw [hAC2]; exact hnil, ?_⟩
    rw [hS2, hAC2, hnil]
    simp

/-- A one-book environment and library for the C2 witness. -/
def c2SmallEnv : IngestEnv :=
  { splitText := fun t => [t],
    loadPdf := fun p => if p = "B.pdf" then some [{ text := "x", page := 0 }] else none,
    existingReadFails := false, commitFails := false, now := "2026-03-03" }

/-- The C2 witness candidate. -/
def c2SmallBook : BookInfo :=
  { semester := "S", subject := "Sub", book_id := "B", book_title := "T",
    pdf_path := "B.pdf", source_path := "S/Sub/B/B.pdf" }

/-- The C2 witness library. -/
def c2SmallLib : List (String × List BookInfo) := [("S", [c2SmallBook])]

/-- Witness for the amended C2 at a one-book source (1 chunk, well within
the 1000-item sample window): the second run adds nothing. -/
theorem ingestion_idempotent_witness :
    (ingest_all c2SmallEnv c2SmallLib false
      (ingest_all c2SmallEnv c2SmallLib false []).store).allChunks = [] ∧
    (ingest_all c2SmallEnv c2SmallLib false
      (ingest_all c2SmallEnv c2SmallLib false []).store).store =
      (ingest_all c2SmallEnv c2SmallLib false []).store :=
  ingestion_idempotent c2SmallEnv c2SmallLib [] rfl rfl (by decide)

/-- An environment whose first book yields 1000 chunks and whose second
yields one more, pushing the second book's chunks past the sampled window. -/
def c2Env : IngestEnv :=
  { splitText := fun t => [t],
    loadPdf := fun p =>
      if p = "B1.pdf" then some (List.replicate 1000 { text := "t1", page := 0 })
      else if p = "B2.pdf" then some [{ text := "t2", page := 0 }]
      else none,
    existingReadFails := false, commitFails := false, now := "2026-02-02" }

/-- First counterexample book: 1000 pages, 1000 chunks. -/
def c2B1 : BookInfo :=
  { semester := "S1", subject := "Sub", book_id := "B1", book_title := "T1",
    pdf_path := "B1.pdf", source_path := "S1/Sub/B1/B1.pdf" }

/-- Second counterexample book: one page, one chunk. -/
def c2B2 : BookInfo :=
  { semester := "S1", subject := "Sub", book_id := "B2", book_title := "T2",
    pdf_path := "B2.pdf", source_path := "S1/Sub/B2/B2.pdf" }

/-- The counterexample library: both books under one semester. -/
def c2Lib : List (String × List BookInfo) := [("S1", [c2B1, c2B2])]

/-- The chunk repeated 1000 times by ingesting `c2B1`. -/
def c2Chunk1 : Chunk := { meta := stampMeta c2B1 { text := "t1", page := 0 }, text := "t1" }

/-- The single chunk of `c2B2`. -/
def c2Chunk2 : Chunk := { meta := stampMeta c2B2 { text := "t2", page := 0 }, text := "t2" }

theorem flatMap_singleton_replicate {α β : Type} (n : Nat) (a : α) (g : α → β)
    (f : α → List β) (h : f a = [g a]) :
    (List.replicate n a).flatMap f = List.replicate n (g a) := by
  induction n with
  | zero => rfl
  | succ n ih =>
    rw [List.replicate_succ, List.flatMap_cons, h, ih, List.replicate_succ]
    rfl

theorem dedup_replicate_succ {α : Type} [DecidableEq α] (n : Nat) (x : α) :
    (List.replicate (n + 1) x).dedup = [x] := by
  induction n with
  | zero => simp
  | succ n ih =>
    rw [List.replicate_succ, List.dedup_cons_of_mem (by simp [List.mem_replicate]), ih]

theorem c2_ingest_b1 : ingest_pdf c2Env c2B1 = List.replicate 1000 c2Chunk1 := by
  have h1 : ingest_pdf c2Env c2B1 =
      (List.replicate 1000 ({ text := "t1", page := 0 } : Page)).flatMap
        (fun p => (c2Env.splitText p.text).map fun t =>
          { meta := stampMeta c2B1 p, text := t }) := rfl
  rw [h1]
  exact flatMap_singleton_replicate 1000 ({ text := "t1", page := 0 } : Page)
    (fun p => ({ meta := stampMeta c2B1 p, text := "t1" } : Chunk)) _ rfl

theorem c2_pB_b2 (ex : List String) (h : c2B2.source_path ∉ ex) :
    processBooks c2Env false ex [c2B2] = ([c2Chunk2], 1, 0) := by
  rw [processBooks, if_neg (by simp [h]), if_neg (by decide)]
  rfl

theorem c2_pB_run1 :
    processBooks c2Env false [] [c2B1, c2B2] =
      (ingest_pdf c2Env c2B1 ++ [c2Chunk2], 2, 0) := by
  rw [processBooks, if_neg (by decide), if_neg (by
    rw [c2_ingest_b1, show (1000 : Nat) = 999 + 1 by norm_num, List.replicate_succ,
      List.isEmpty_cons]
    exact Bool.false_ne_true)]
  rw [c2_pB_b2 [] (by simp)]

theorem c2_run1 :
    (ingest_all c2Env c2Lib false []).store = List.replicate 1000 c2Chunk1 ++ [c2Chunk2] := by
  obtain ⟨hAC, hS⟩ := ingest_all_noforce c2Env c2Lib [] rfl rfl
  rw [hS, hAC, show get_existing_books_in_vectorstore c2Env [] = [] from rfl,
    show libraryBooks c2Lib = [c2B1, c2B2] from rfl, c2_pB_run1, c2_ingest_b1]
  rfl

theorem c2_existing2 :
    get_existing_books_in_vectorstore c2Env (List.replicate 1000 c2Chunk1 ++ [c2Chunk2]) =
      ["S1/Sub/B1/B1.pdf"] := by
  rw [get_existing_books_in_vectorstore, if_neg (by decide),
    List.take_left' (by rw [List.length_replicate]), List.map_replicate]
  show (List.replicate 1000 "S1/Sub/B1/B1.pdf").dedup = ["S1/Sub/B1/B1.pdf"]
  rw [show (1000 : Nat) = 999 + 1 by norm_num, dedup_replicate_succ]

theorem c2_pB_run2 :
    processBooks c2Env false ["S1/Sub/B1/B1.pdf"] [c2B1, c2B2] = ([c2Chunk2], 1, 1) := by
  rw [processBooks, if_pos (by decide), c2_pB_b2 ["S1/Sub/B1/B1.pdf"] (by decide)]

theorem c2_run2 :
    (ingest_all c2Env c2Lib false (List.replicate 1000 c2Chunk1 ++ [c2Chunk2])).allChunks =
      [c2Chunk2] ∧
    (ingest_all c2Env c2Lib false (List.replicate 1000 c2Chunk1 ++ [c2Chunk2])).store =
      (List.replicate 1000 c2Chunk1 ++ [c2Chunk2]) ++ [c2Chunk2] := by
  obtain ⟨hAC, hS⟩ :=
    ingest_all_noforce c2Env c2Lib (List.replicate 1000 c2Chunk1 ++ [c2Chunk2]) rfl rfl
  rw [hS, hAC, c2_existing2, show libraryBooks c2Lib = [c2B1, c2B2] from rfl, c2_pB_run2]
  exact ⟨rfl, rfl⟩

/-- Counterexample to C2 as stated: from an empty Index, the first run over
this two-book source stores 1001 chunks; on the second run the diff step
samples only the first 1000 stored items, misses the second book's source
path, re-processes it, and adds one chunk again — the Index contents after
the second run (1002 chunks) differ from those after the first (1001). -/
theorem ingestion_idempotence_cex :
    (ingest_all c2Env c2Lib false []).store.length = 1001 ∧
    (ingest_all c2Env c2Lib false
      (ingest_all c2Env c2Lib false []).store).allChunks.length = 1 ∧
    (ingest_all c2Env c2Lib false
      (ingest_all c2Env c2Lib false []).store).store.length = 1002 := by
  refine ⟨?_, ?_, ?_⟩
  · rw [c2_run1, List.length_append, List.length_replicate]
    rfl
  · rw [c2_run1, c2_run2.1]
    rfl
  · rw [c2_run1, c2_run2.2, List.length_append, List.length_append, List.length_replicate]
    rfl

/-- C8: every ingestion run that reaches the log step persists one
run-summary record whose fields are exactly the run timestamp, the processed
count, the skipped count, the total chunk count and the scanned hierarchy
snapshot. -/
theorem ingestion_run_log (env : IngestEnv) (lib : List (String × List BookInfo))
    (force : Bool) (store : List Chunk) (lg : LogRecord)
    (h : (ingest_all env lib force store).log = some lg) :
    lg.timestamp = env.now ∧
    lg.books_processed = (ingest_all env lib force store).processed ∧
    lg.books_skipped = (ingest_all env lib force store).skipped ∧
    lg.total_chunks = (ingest_all env lib force store).allChunks.length ∧
    lg.library_structure = lib := by
  simp only [ingest_all] at h ⊢
  split_ifs at h ⊢ <;> dsimp only at h ⊢ <;>
    first
      | exact Option.noConfusion h
      | (rw [Option.some.injEq] at h; subst h; exact ⟨rfl, rfl, rfl, rfl, rfl⟩)

/-- A one-book run for the C8 witness. -/
def c8Env : IngestEnv :=
  { splitText := fun t => [t], loadPdf := fun _ => some [{ text := "z", page := 3 }],
    existingReadFails := false, commitFails := false, now := "2026-04-04T10:00:00" }

/-- The C8 witness candidate. -/
def c8Book : BookInfo :=
  { semester := "S", subject := "Q", book_id := "K", book_title := "KT",
    pdf_path := "k.pdf", source_path := "S/Q/K/k.pdf" }

/-- The C8 witness library. -/
def c8Lib : List (String × List BookInfo) := [("S", [c8Book])]

/-- The log record the C8 witness run persists. -/
def c8Rec : LogRecord :=
  { timestamp := "2026-04-04T10:00:00", books_processed := 1, books_skipped := 0,
    total_chunks := 1, library_structure := c8Lib }

/-- Witness for C8: the concrete run writes exactly `c8Rec`, and its fields
agree with the run's counts. -/
theorem ingestion_run_log_witness :
    (ingest_all c8Env c8Lib false []).log = some c8Rec ∧
    (c8Rec.timestamp = c8Env.now ∧
      c8Rec.books_processed = (ingest_all c8Env c8Lib false []).processed ∧
      c8Rec.books_skipped = (ingest_all c8Env c8Lib false []).skipped ∧
      c8Rec.total_chunks = (ingest_all c8Env c8Lib false []).allChunks.length ∧
      c8Rec.library_structure = c8Lib) :=
  ⟨rfl, ingestion_run_log c8Env c8Lib false [] c8Rec rfl⟩

theorem processBooks_nil_existing (env : IngestEnv) (force : Bool) (bs : List BookInfo) :
    processBooks env force [] bs = processBooks env true [] bs := by
  induction bs with
  | nil => rfl
  | cons b rest ih => simp [processBooks, ih]

theorem processBooks_skipped_zero (env : IngestEnv) (force : Bool) (bs : List BookInfo) :
    (processBooks env force [] bs).2.2 = 0 := by
  induction bs with
  | nil => rfl
  | cons b rest ih =>
    rw [processBooks, if_neg (by simp)]
    split
    · exact ih
    · exact ih

/-- C10: when reading the set of already-ingested source paths raises, the
diff step silently degrades to the empty set — no error is recorded in the
run's result or its log — so the run treats every candidate as new: it
behaves exactly like a force re-ingest run and skips nothing. -/
theorem diff_failure_silently_absorbed (env : IngestEnv)
    (lib : List (String × List BookInfo)) (store : List Chunk)
    (h : env.existingReadFails = true) :
    get_existing_books_in_vectorstore env store = [] ∧
    ingest_all env lib false store = ingest_all env lib true store ∧
    (ingest_all env lib false store).skipped = 0 := by
  have hex : get_existing_books_in_vectorstore env store = [] := by
    rw [get_existing_books_in_vectorstore, if_pos h]
  refine ⟨hex, ?_, ?_⟩
  · simp [ingest_all, hex, processBooks_nil_existing env false (libraryBooks lib)]
  · simp only [ingest_all, hex]
    split_ifs <;> first
      | rfl
      | exact processBooks_skipped_zero env false _

/-- An environment whose diff-step read raises, over a store that already
contains the candidate's chunk. -/
def c10Env : IngestEnv :=
  { splitText := fun t => [t], loadPdf := fun _ => some [{ text := "w", page := 0 }],
    existingReadFails := true, commitFails := false, now := "2026-05-05" }

/-- The C10 witness candidate. -/
def c10Book : BookInfo :=
  { semester := "A", subject := "B", book_id := "C", book_title := "D",
    pdf_path := "d.pdf", source_path := "A/B/C/d.pdf" }

/-- The C10 witness library. -/
def c10Lib : List (String × List BookInfo) := [("A", [c10Book])]

/-- A store that already holds the candidate's chunk: despite this, the
failed diff read makes the run re-process the candidate. -/
def c10Store : List Chunk :=
  [{ meta := stampMeta c10Book { text := "w", page := 0 }, text := "w" }]

/-- Witness for C10 at a concrete failing-read run. -/
theorem diff_failure_silently_absorbed_witness :
    get_existing_books_in_vectorstore c10Env c10Store = [] ∧
    ingest_all c10Env c10Lib false c10Store = ingest_all c10Env c10Lib true c10Store ∧
    (ingest_all c10Env c10Lib false c10Store).skipped = 0 :=
  diff_failure_silently_absorbed c10Env c10Lib c10Store rfl

/-! ## Navigation name resolution (`handle_navigation_command`, lines 678-712)

The `use` branch (lines 679-694) and the `open` branch (lines 697-712)
share the same resolution logic, modelled once here. Python `str.lower()`
is modelled by `lowerStr`, written over the character list so that it
evaluates by reduction. In the source the
candidate reaching this logic was already lowercased by the command parse
(`command.strip().lower()`). -/

/-- The case-insensitive resolution of a candidate name against the catalog
values: on a case-insensitive match, adopt the first canonically-cased
stored value and print no warning; otherwise adopt the candidate as given
and print the not-found warning exactly when the catalog listed at least
one value (`if available:`). Returns the value stored into the scope and
whether the warning was printed. -/
def lowerStr (s : String) : String := String.mk (s.data.map Char.toLower)

/-- See the section comment: the resolution step shared by `use`/`open`. -/
def resolveCandidate (arg : String) (available : List String) : String × Bool :=
  match available.find? (fun s => lowerStr s == lowerStr arg) with
  | some s => (s, false)
  | none => (arg, !available.isEmpty)

/-- C5 (amended): a candidate matching a stored value case-insensitively
resolves to that canonically-cased stored value; an unmatched candidate is
passed through unchanged into the scope, and the user is warned exactly
when the catalog lists at least one value (no warning is printed over an
empty catalog). -/
theorem case_insensitive_resolution (arg : String) (available : List String) :
    ((∃ s ∈ available, lowerStr s = lowerStr arg) →
      ∃ s ∈ available, lowerStr s = lowerStr arg ∧
        resolveCandidate arg available = (s, false)) ∧
    ((∀ s ∈ available, lowerStr s ≠ lowerStr arg) →
      resolveCandidate arg available = (arg, !available.isEmpty)) := by
  constructor
  · intro hex
    have hsome : (available.find? (fun s => lowerStr s == lowerStr arg)).isSome := by
      rw [List.find?_isSome]
      obtain ⟨s, hs, he⟩ := hex
      exact ⟨s, hs, by simp [he]⟩
    obtain ⟨s, hfind⟩ := Option.isSome_iff_exists.mp hsome
    refine ⟨s, List.mem_of_find?_eq_some hfind, ?_, ?_⟩
    · have := List.find?_some hfind
      simpa using this
    · rw [resolveCandidate, hfind]
  · intro hall
    have hnone : available.find? (fun s => lowerStr s == lowerStr arg) = none := by
      rw [List.find?_eq_none]
      intro s hs
      simp [hall s hs]
    rw [resolveCandidate, hnone]

/-- Witness for C5 at the spec's example: candidate `y3s2` against stored
`{Y3S2}` resolves to the canonical `Y3S2` with no warning. -/
theorem case_insensitive_resolution_witness :
    ∃ s ∈ ["Y3S2"], lowerStr s = lowerStr "y3s2" ∧
      resolveCandidate "y3s2" ["Y3S2"] = (s, false) :=
  (case_insensitive_resolution "y3s2" ["Y3S2"]).1
    ⟨"Y3S2", List.mem_singleton_self "Y3S2", by decide⟩

/-- Counterexample to C5 as stated: with an empty catalog no stored value
matches candidate `x3s1`; the candidate is passed through, but contrary to
the claim the user is NOT warned (the source warns only `if available:`). -/
theorem case_insensitive_resolution_cex :
    (resolveCandidate "x3s1" []).1 = "x3s1" ∧ (resolveCandidate "x3s1" []).2 ≠ true := by
  exact ⟨rfl, by decide⟩

/-! ## Tool dispatch (`take_action`, StudyRAGSystem.py lines 502-520;
the same loop appears in RAGAgent.py lines 135-153 with a different
unknown-tool message text). Tool argument dicts are modelled as opaque
payloads. -/

/-- One tool invocation requested by the completion service. -/
structure ToolCall where
  name : String
  args : String
  id : String
deriving DecidableEq

/-- A `ToolMessage` appended by `take_action`: correlation id, tool name and
stringified result content. -/
structure ToolMsg where
  tool_call_id : String
  name : String
  content : String
deriving DecidableEq

/-- The result string `take_action` synthesizes for an unknown tool name. -/
def unknownToolMsg (name : String) : String :=
  "Error: Tool '" ++ name ++ "' does not exist."

/-- The body of the loop of `take_action` for one invocation: dict lookup by
tool name; unknown names get the synthesized error result, known tools are
invoked on the supplied arguments. -/
def answerCall (tools_dict : List (String × (String → String))) (t : ToolCall) : ToolMsg :=
  match tools_dict.lookup t.name with
  | none => { tool_call_id := t.id, name := t.name, content := unknownToolMsg t.name }
  | some f => { tool_call_id := t.id, name := t.name, content := f t.args }

/-- `take_action`: process every requested invocation independently, in
order, appending one result message per invocation. -/
def take_action (tools_dict : List (String × (String → String)))
    (tool_calls : List ToolCall) : List ToolMsg :=
  tool_calls.map (answerCall tools_dict)

theorem answerCall_id (tools_dict : List (String × (String → String))) (t : ToolCall) :
    (answerCall tools_dict t).tool_call_id = t.id := by
  unfold answerCall
  split <;> rfl

theorem answerCall_name (tools_dict : List (String × (String → String))) (t : ToolCall) :
    (answerCall tools_dict t).name = t.name := by
  unfold answerCall
  split <;> rfl

/-- C6: the ACT step processes every requested invocation in order — one
result message per invocation, so an unknown tool never aborts the loop; an
unknown tool name yields the synthesized incorrect-tool-name result, a known
tool is invoked on its supplied arguments, and each appended result message
carries exactly the id of the invocation it answers. -/
theorem unknown_tool_handling (tools_dict : List (String × (String → String)))
    (tool_calls : List ToolCall) :
    (take_action tools_dict tool_calls).length = tool_calls.length ∧
    ∀ i (h : i < tool_calls.length),
      ∃ msg, (take_action tools_dict tool_calls).get? i = some msg ∧
        msg.tool_call_id = (tool_calls.get ⟨i, h⟩).id ∧
        msg.name = (tool_calls.get ⟨i, h⟩).name ∧
        (tools_dict.lookup (tool_calls.get ⟨i, h⟩).name = none →
          msg.content = unknownToolMsg (tool_calls.get ⟨i, h⟩).name) ∧
        (∀ f, tools_dict.lookup (tool_calls.get ⟨i, h⟩).name = some f →
          msg.content = f (tool_calls.get ⟨i, h⟩).args) := by
  constructor
  · simp [take_action]
  · intro i h
    refine ⟨answerCall tools_dict (tool_calls.get ⟨i, h⟩), ?_, answerCall_id _ _,
      answerCall_name _ _, ?_, ?_⟩
    · rw [take_action, List.get?_map, List.get?_eq_get h]
      rfl
    · intro hnone
      unfold answerCall
      rw [hnone]
    · intro f hf
      unfold answerCall
      rw [hf]

/-- The tool dictionary for the C6 witness: one known tool. -/
def c6Tools : List (String × (String → String)) :=
  [("retriever_tool", fun q => "RESULT: " ++ q)]

/-- Two invocations: one known tool, one unknown tool. -/
def c6Calls : List ToolCall :=
  [{ name := "retriever_tool", args := "q1", id := "id1" },
   { name := "bad_tool", args := "q2", id := "id2" }]

/-- Witness for C6: both invocations are answered; the unknown `bad_tool`
invocation at position 1 gets the synthesized message with its own id. -/
theorem unknown_tool_handling_witness :
    (take_action c6Tools c6Calls).length = 2 ∧
    (∃ msg, (take_action c6Tools c6Calls).get? 1 = some msg ∧
      msg.tool_call_id = "id2" ∧
      msg.name = "bad_tool" ∧
      (c6Tools.lookup "bad_tool" = none → msg.content = unknownToolMsg "bad_tool") ∧
      (∀ f, c6Tools.lookup "bad_tool" = some f → msg.content = f "q2")) :=
  ⟨(unknown_tool_handling c6Tools c6Calls).1,
    (unknown_tool_handling c6Tools c6Calls).2 1 (by decide)⟩

/-! ## Reasoning loop (`build_study_agent`, lines 531-566; `call_llm` /
`should_continue`, lines 489-528; `build_graph` in RAGAgent.py, 157-176)

The completion service is an explicit parameter (`llm`). The graph wiring
comes from the source: START → llm; llm → take_action exactly when
`should_continue` sees tool calls on the last message; take_action → llm;
otherwise END. -/

/-- A conversation message: the four kinds the loop handles. -/
inductive Msg
  | system (content : String)
  | human (content : String)
  | ai (content : String) (tool_calls : List ToolCall)
  | tool (m : ToolMsg)
deriving DecidableEq

/-- `hasattr(result, 'tool_calls')` access: only assistant responses carry
tool invocation requests. -/
def msgToolCalls : Msg → List ToolCall
  | Msg.ai _ tcs => tcs
  | _ => []

/-- `should_continue`: the last message carries at least one tool call.
(The source indexes `messages[-1]`, which in the graph is never run on an
empty list; an empty list maps to `false` here.) -/
def should_continue (msgs : List Msg) : Bool :=
  match msgs.getLast? with
  | some m => !(msgToolCalls m).isEmpty
  | none => false

/-- The fatal outcome for a query that exhausts its iteration budget. -/
inductive LoopError
  | iterationBudgetExceeded
deriving DecidableEq

/-- Modelled from the spec: the compiled graph's executor with its
configurable iteration cap, which is not part of this repository's source
(it lives in the external graph runtime; the source only wires the graph
in `build_study_agent` / `build_graph` and compiles it). Per §4.6 of the
spec, one ASK step appends the completion-service response to the system
prompt plus history (`call_llm`); when the response requests tools, the
ACT step (`take_action`) appends one result message per invocation and the
loop returns to ASK; exhausting the cap is the fatal
iteration-budget-exceeded error. Returns the outcome together with the
number of ASK steps executed. -/
def runAgent (llm : List Msg → Msg) (tools_dict : List (String × (String → String)))
    (sysPrompt : String) : Nat → List Msg → Except LoopError (List Msg) × Nat
  | 0, _ => (Except.error LoopError.iterationBudgetExceeded, 0)
  | Nat.succ cap, msgs =>
    let response := llm (Msg.system sysPrompt :: msgs)
    let msgs1 := msgs ++ [response]
    if should_continue msgs1 then
      let results := take_action tools_dict (msgToolCalls response)
      let next := runAgent llm tools_dict sysPrompt cap (msgs1 ++ results.map Msg.tool)
      (next.1, next.2 + 1)
    else
      (Except.ok msgs1, 1)

/-- C7: the reasoning loop is bounded by its configurable cap: for every
completion-service behavior the number of ASK iterations never exceeds the
cap, and a service that requests a tool call on every response drives the
loop into the fatal iteration-budget-exceeded error — never a silent
truncation or an endless loop. -/
theorem loop_bounded_termination (llm : List Msg → Msg)
    (tools_dict : List (String × (String → String))) (sysPrompt : String)
    (cap : Nat) (msgs : List Msg) :
    (runAgent llm tools_dict sysPrompt cap msgs).2 ≤ cap ∧
    ((∀ ms, msgToolCalls (llm ms) ≠ []) →
      (runAgent llm tools_dict sysPrompt cap msgs).1 =
        Except.error LoopError.iterationBudgetExceeded) := by
  induction cap generalizing msgs with
  | zero => exact ⟨Nat.le_refl 0, fun _ => rfl⟩
  | succ cap ih =>
    constructor
    · simp only [runAgent]
      split
      · exact Nat.succ_le_succ (ih _).1
      · exact Nat.succ_le_succ (Nat.zero_le cap)
    · intro halways
      have hsc : should_continue
          (msgs ++ [llm (Msg.system sysPrompt :: msgs)]) = true := by
        rw [should_continue, List.getLast?_concat]
        simp [halways (Msg.system sysPrompt :: msgs)]
      simp only [runAgent]
      rw [if_pos hsc]
      exact (ih _).2 halways

/-- A completion-service stub that requests a tool call on every response. -/
def c7Llm : List Msg → Msg :=
  fun _ => Msg.ai "calling tool" [{ name := "retriever_tool", args := "q", id := "1" }]

/-- Witness for C7: with the always-requesting stub and cap 25 (the graph
runtime's default recursion limit), the loop performs at most 25 ASK steps
and ends in the fatal budget error. -/
theorem loop_bounded_termination_witness :
    (runAgent c7Llm [] "sys" 25 []).2 ≤ 25 ∧
    (runAgent c7Llm [] "sys" 25 []).1 = Except.error LoopError.iterationBudgetExceeded :=
  ⟨(loop_bounded_termination c7Llm [] "sys" 25 []).1,
    (loop_bounded_termination c7Llm [] "sys" 25 []).2
      (fun ms => by simp [c7Llm, msgToolCalls])⟩

/-! ## Catalog (`Catalog`, lines 298-384)

The Chroma `collection.get()` call is an explicit parameter: the list of
stored metadata entries (possibly falsy ones, filtered out as in
`_get_all_metadata`), or a raised exception. -/

/-- The `collection.get()` view the Catalog reads. -/
abbrev IndexFetch := Except Unit (List (Option ChunkMeta))

/-- Per-instance Catalog state: the `_cache` field (`None` until the first
successful fetch). -/
structure CatalogState where
  cache : Option (List ChunkMeta)
deriving DecidableEq

/-- `Catalog._get_all_metadata`: return the cache when set; otherwise fetch,
filter falsy entries and cache on success; on an exception return the empty
list without caching. Returns the metadata list and the updated state. -/
def get_all_metadata (idx : IndexFetch) (st : CatalogState) :
    List ChunkMeta × CatalogState :=
  match st.cache with
  | some c => (c, st)
  | none =>
    match idx with
    | Except.error _ => ([], st)
    | Except.ok ms => (ms.filterMap id, { cache := some (ms.filterMap id) })

/-- Lexicographic code-point comparison on character lists (the order
Python `sorted` uses on strings), written so that it evaluates by
reduction. -/
def charListLt : List Char → List Char → Bool
  | [], [] => false
  | [], _ :: _ => true
  | _ :: _, [] => false
  | a :: as, b :: bs =>
    if a.toNat < b.toNat then true
    else if b.toNat < a.toNat then false
    else charListLt as bs

/-- Python string comparison `a < b`. -/
def strLtB (a b : String) : Bool := charListLt a.data b.data

/-- Insertion step of the model of Python `sorted` on strings. -/
def insertSortedStr (x : String) : List String → List String
  | [] => [x]
  | y :: ys => if strLtB x y then x :: y :: ys else y :: insertSortedStr x ys

/-- Python `sorted` on a list of strings (insertion sort; the listing
results are duplicate-free, so stability is irrelevant). -/
def sortStrings (l : List String) : List String := l.foldr insertSortedStr []

/-- Python `sorted(set(...))`: deduplicate, then sort. -/
def sortedUnique (l : List String) : List String := sortStrings l.dedup

/-- The pure listing `list_semesters` applies to a metadata snapshot:
sorted distinct non-empty semesters. -/
def semestersOf (md : List ChunkMeta) : List String :=
  sortedUnique ((md.filter fun m => !m.semester.isEmpty).map fun m => m.semester)

/-- `Catalog.list_semesters`. -/
def list_semesters (idx : IndexFetch) (st : CatalogState) :
    List String × CatalogState :=
  let r := get_all_metadata idx st
  (semestersOf r.1, r.2)

/-- The `if semester:` filter of `list_subjects` / `list_books`:
case-insensitive, skipped for `None` or the empty string. -/
def filterBySemester (md : List ChunkMeta) : Option String → List ChunkMeta
  | none => md
  | some s => if s.isEmpty then md
      else md.filter fun m => lowerStr m.semester == lowerStr s

/-- The `if subject:` filter of `list_books`. -/
def filterBySubject (md : List ChunkMeta) : Option String → List ChunkMeta
  | none => md
  | some s => if s.isEmpty then md
      else md.filter fun m => lowerStr m.subject == lowerStr s

/-- The pure listing `list_subjects` applies to a metadata snapshot. -/
def subjectsOf (md : List ChunkMeta) (semester : Option String) : List String :=
  sortedUnique (((filterBySemester md semester).filter
    fun m => !m.subject.isEmpty).map fun m => m.subject)

/-- `Catalog.list_subjects`. -/
def list_subjects (idx : IndexFetch) (st : CatalogState) (semester : Option String) :
    List String × CatalogState :=
  let r := get_all_metadata idx st
  (subjectsOf r.1 semester, r.2)

/-- One entry of the `books_dict` built by `list_books`. -/
structure BookDescr where
  book_id : String
  book_title : String
  subject : String
  semester : String
deriving DecidableEq

/-- The `books_dict` build of `list_books`: first occurrence per non-empty
book id, in metadata order. -/
def dedupBooks : List ChunkMeta → List String → List BookDescr
  | [], _ => []
  | m :: ms, seen =>
    if m.book_id.isEmpty || seen.contains m.book_id then dedupBooks ms seen
    else { book_id := m.book_id, book_title := m.book_title, subject := m.subject,
           semester := m.semester } :: dedupBooks ms (m.book_id :: seen)

/-- Insertion step of `sorted(..., key=book_id)` on book descriptors. -/
def insertSortedBook (b : BookDescr) : List BookDescr → List BookDescr
  | [] => [b]
  | y :: ys => if strLtB b.book_id y.book_id then b :: y :: ys
      else y :: insertSortedBook b ys

/-- `sorted(books_dict.values(), key=book_id)` (keys are distinct after the
dict build, so stability is irrelevant). -/
def sortBooks (l : List BookDescr) : List BookDescr := l.foldr insertSortedBook []

/-- The pure listing `list_books` applies to a metadata snapshot. -/
def booksOf (md : List ChunkMeta) (semester subject : Option String) : List BookDescr :=
  sortBooks (dedupBooks (filterBySubject (filterBySemester md semester) subject) [])

/-- `Catalog.list_books`. -/
def list_books (idx : IndexFetch) (st : CatalogState)
    (semester subject : Option String) : List BookDescr × CatalogState :=
  let r := get_all_metadata idx st
  (booksOf r.1 semester subject, r.2)

/-- `Catalog.get_scope_description` (pure; touches neither cache nor
index). -/
def get_scope_description (sc : ScopeState) : String :=
  let parts :=
    (match sc.active_semester with
      | some s => if s.isEmpty then [] else ["Semester: " ++ s]
      | none => []) ++
    (match sc.active_subject with
      | some s => if s.isEmpty then [] else ["Subject: " ++ s]
      | none => []) ++
    (match sc.active_books with
      | [] => []
      | [b] => ["Book: " ++ b]
      | bs => ["Books: " ++ String.intercalate ", " bs])
  if parts.isEmpty then "All materials (no active scope)"
  else String.intercalate " | " parts

/-- The complete operation surface of the `Catalog` class (besides
construction): the three listing queries and the scope description. -/
inductive CatalogOp
  | listSemesters
  | listSubjects (semester : Option String)
  | listBooks (semester subject : Option String)
  | describeScope (scope : ScopeState)

/-- The Catalog state left behind by one operation. -/
def catalogStateAfter (op : CatalogOp) (idx : IndexFetch) (st : CatalogState) :
    CatalogState :=
  match op with
  | CatalogOp.listSemesters => (list_semesters idx st).2
  | CatalogOp.listSubjects sem => (list_subjects idx st sem).2
  | CatalogOp.listBooks sem subj => (list_books idx st sem subj).2
  | CatalogOp.describeScope _ => st

/-- C9 (amended): the metadata snapshot is cached on the first successful
fetch, and once the cache is populated every listing call computes from
that snapshot — independent of the current Index contents and leaving the
state unchanged; but the Catalog offers NO cache-invalidation or refresh
operation, so a long-lived process observes a grown Index only by
constructing a new Catalog instance. -/
theorem catalog_cache_spec (idx idx2 : IndexFetch) (st : CatalogState)
    (c : List ChunkMeta) (h : st.cache = some c) :
    (∀ op, catalogStateAfter op idx st = st) ∧
    (list_semesters idx st).1 = semestersOf c ∧
    (∀ sem, (list_subjects idx st sem).1 = subjectsOf c sem) ∧
    (∀ sem subj, (list_books idx st sem subj).1 = booksOf c sem subj) ∧
    (list_semesters idx st).1 = (list_semesters idx2 st).1 ∧
    (∀ ms, (get_all_metadata (Except.ok ms) { cache := none }).2.cache =
      some (ms.filterMap id)) := by
  have hg : ∀ idx3 : IndexFetch, get_all_metadata idx3 st = (c, st) := by
    intro idx3
    simp [get_all_metadata, h]
  refine ⟨?_, ?_, ?_, ?_, ?_, fun ms => rfl⟩
  · intro op
    cases op <;> simp [catalogStateAfter, list_semesters, list_subjects, list_books, hg]
  · simp [list_semesters, hg]
  · intro sem
    simp [list_subjects, hg]
  · intro sem subj
    simp [list_books, hg]
  · simp [list_semesters, hg]

/-- A metadata entry with semester `A`, cached before the Index grew. -/
def c9MetaA : ChunkMeta :=
  { semester := "A", subject := "S", book_id := "B", book_title := "T",
    source_path := "p", page := 0 }

/-- The entry added to the Index after the Catalog cached its snapshot. -/
def c9MetaB : ChunkMeta :=
  { semester := "B", subject := "S2", book_id := "B2", book_title := "T2",
    source_path := "p2", page := 0 }

/-- A Catalog whose cache holds the pre-growth snapshot. -/
def c9Cached : CatalogState := { cache := some [c9MetaA] }

/-- The grown Index: both entries. -/
def c9GrownIdx : IndexFetch := Except.ok [some c9MetaA, some c9MetaB]

/-- Counterexample to C9 as stated: a fresh Catalog sees both semesters of
the grown Index, but no operation of a Catalog holding the old snapshot
ever makes a subsequent listing observe the growth — the class provides no
cache-invalidation/refresh operation. -/
theorem catalog_refresh_cex :
    (list_semesters c9GrownIdx { cache := none }).1 = ["A", "B"] ∧
    ¬ ∃ op : CatalogOp,
      (list_semesters c9GrownIdx (catalogStateAfter op c9GrownIdx c9Cached)).1 =
        ["A", "B"] := by
  constructor
  · decide
  · rintro ⟨op, hop⟩
    have hst : catalogStateAfter op c9GrownIdx c9Cached = c9Cached := by
      cases op <;> rfl
    rw [hst] at hop
    have hA : (list_semesters c9GrownIdx c9Cached).1 = ["A"] := by decide
    rw [hA] at hop
    exact absurd hop (by decide)

/-- Witness for the amended C9 at the concrete cached Catalog and grown
Index. -/
theorem catalog_cache_spec_witness :
    (∀ op, catalogStateAfter op c9GrownIdx c9Cached = c9Cached) ∧
    (list_semesters c9GrownIdx c9Cached).1 = semestersOf [c9MetaA] ∧
    (∀ sem, (list_subjects c9GrownIdx c9Cached sem).1 = subjectsOf [c9MetaA] sem) ∧
    (∀ sem subj,
      (list_books c9GrownIdx c9Cached sem subj).1 = booksOf [c9MetaA] sem subj) ∧
    (list_semesters c9GrownIdx c9Cached).1 =
      (list_semesters (Except.error ()) c9Cached).1 ∧
    (∀ ms, (get_all_metadata (Except.ok ms) { cache := none }).2.cache =
      some (ms.filterMap id)) :=
  catalog_cache_spec c9GrownIdx (Except.error ()) c9Cached [c9MetaA] rfl

end StudyRAG
